import Mathlib

/-!
Verification of `pymodaq_plugins_crystal_technology/hardware/aods_controller.py`.

The module drives an AOTF controller through a vendor DLL.  We embed the
protocol engine shallowly:

* Python strings are `List Char` (`PyStr`); `str.split('\r\n')`,
  `str.lstrip(chars)` and `str.rstrip(chars)` are modelled by `splitCRLF`,
  `pyLstrip` and `pyRstrip` with Python's semantics (`lstrip`/`rstrip`
  remove leading/trailing characters belonging to the *character set* of
  their argument).
* The transport DLL is abstracted by a `Transport` record (whether
  `AotfWrite` / `AotfClose` report success, and the return value of
  `AotfOpen`) plus, for the read loop, a list of poll events: `some chunk`
  means `AotfIsReadDataAvailable` returned true and `AotfRead` delivered
  `chunk`; `none` means no data was available, so the loop sleeps 0.1 s.
* Wall-clock time is counted in tenths of a second: the timeout is
  10 s = `timeout_tenths = 100` tenths, every sleep advances time by one
  tenth, reads are instantaneous.  The code checks
  `time.perf_counter() - start > self._timeout` at the end of each loop
  iteration.
* Python floats are idealised as rationals `ℚ`.  A numpy `Polynomial`
  constructed with `domain == window` maps its argument identically, so
  evaluation is plain polynomial evaluation of the coefficient list
  (`polyEval`, low degree first, Horner form).
* Each method of class `AOTF` becomes a function from a `Transport` and an
  `AotfState` (fields `_handle` and `_calibration`) to an `OpResult`:
  the resulting state, the list of commands handed to the transport, and
  a normal (`Except.ok`) or exceptional (`Except.error`) outcome.  The
  numeric f-string formatting of commands is kept structural (`Cmd`);
  the uniform trailing `'\r'` appended by `_write` is shown for raw
  string commands.
* Exception names follow the spec taxonomy; in the code they are the
  `IOError`/`ValueError` instances raised at the corresponding places.
-/

namespace AodsController

/-- Python `str`, modelled as its list of characters. -/
abbrev PyStr := List Char

/-- Prepend a character to the first piece of a split result (helper for
`splitCRLF`); the result is never empty. -/
def consHead (c : Char) : List PyStr → List PyStr
  | t :: ts => (c :: t) :: ts
  | [] => [[c]]

/-- Python `read.split('\r\n')` from `AOTF._check_message_done`: split on the
two-character separator, leftmost first; the result always has at least one
piece (splitting the empty string gives `[[]]`, i.e. Python's `['']`). -/
def splitCRLF : PyStr → List PyStr
  | [] => [[]]
  | [c] => [[c]]
  | c1 :: c2 :: rest =>
      if c1 = '\r' ∧ c2 = '\n' then [] :: splitCRLF rest
      else consHead c1 (splitCRLF (c2 :: rest))

/-- Python `s.lstrip(chars)`: drop leading characters that belong to the
character set of `chars`. -/
def pyLstrip (l : PyStr) (chars : PyStr) : PyStr :=
  l.dropWhile (fun c => chars.contains c)

/-- Python `s.rstrip(chars)`: drop trailing characters that belong to the
character set of `chars`. -/
def pyRstrip (l : PyStr) (chars : PyStr) : PyStr :=
  (l.reverse.dropWhile (fun c => chars.contains c)).reverse

/-- `AOTF._check_message_done(read, msg)`: split the buffer on `'\r\n'`;
the message is done when the first line equals the echoed command and the
last line contains an asterisk.  `splits[0]` / `splits[-1]` are modelled by
`headD` / `getLastD`, legitimate because the split is never empty
(`splitCRLF_ne_nil`). -/
def check_message_done (read msg : PyStr) : Bool :=
  let splits := splitCRLF read
  if splits.headD [] ≠ msg then false
  else (splits.getLastD []).contains '*'

/-- The two strip statements of `AOTF._loop_read` executed on completion:
`read.lstrip(f'{msg}\r\n')` then `read.rstrip('\r\n* ')`. -/
def strip_response (read msg : PyStr) : PyStr :=
  pyRstrip (pyLstrip read (msg ++ ['\r', '\n'])) ['\r', '\n', '*', ' ']

/-- `self._timeout = 10` seconds, in tenths of a second. -/
def timeout_tenths : Nat := 100

/-- The `while True` loop of `AOTF._loop_read`, driven by the list of poll
events.  Arguments: accumulated buffer `read`, remaining events, number of
0.1 s sleeps performed so far (elapsed time in tenths, reads being
instantaneous).  When the events run out, data is never available again, so
the loop keeps sleeping until the deadline and returns the empty string; the
returned clock is the first multiple of 0.1 s strictly beyond the timeout. -/
def loop_read_go (msg : PyStr) : PyStr → List (Option PyStr) → Nat → PyStr × Nat
  | _, [], sleeps => ([], max (sleeps + 1) (timeout_tenths + 1))
  | read, some chunk :: rest, sleeps =>
      let read2 := read ++ chunk
      if check_message_done read2 msg then (strip_response read2 msg, sleeps)
      else if sleeps > timeout_tenths then ([], sleeps)
      else loop_read_go msg read2 rest sleeps
  | read, none :: rest, sleeps =>
      if sleeps + 1 > timeout_tenths then ([], sleeps + 1)
      else loop_read_go msg read rest (sleeps + 1)

/-- `AOTF._loop_read(msg)` together with the elapsed wall clock (tenths of a
second) at the moment it returns. -/
def loop_read_timed (msg : PyStr) (events : List (Option PyStr)) : PyStr × Nat :=
  loop_read_go msg [] events 0

/-- `AOTF._loop_read(msg)`: the returned string. -/
def loop_read (msg : PyStr) (events : List (Option PyStr)) : PyStr :=
  (loop_read_timed msg events).1

/-- The exceptions raised by `aods_controller.py`, named after the spec's
taxonomy.  `notOpen` is the `IOError` of `_check_handle`; `openFailed` /
`closeFailed` the `IOError`s of `open` / `close`; `writeFailed` /
`readFailed` the `IOError`s of `_write` / `_read`; `invalidChannel` the
`ValueError` of `_check_channel`. -/
inductive AotfError where
  | notOpen
  | openFailed (index : Int)
  | closeFailed
  | writeFailed
  | readFailed
  | invalidChannel
  deriving DecidableEq

/-- One entry of the `calibration.toml` table: coefficient list (low degree
first) and closed domain interval, as fed to
`Polynomial(coeffs, domain=domain, window=domain)`. -/
structure CalibEntry where
  coeffs : List ℚ
  domain : ℚ × ℚ
  deriving DecidableEq

/-- The mutable state of an `AOTF` instance: `self._handle`
(`None` or the nonzero integer returned by `AotfOpen`) and
`self._calibration` (`None` or the active calibration). -/
structure AotfState where
  handle : Option Int
  calibration : Option CalibEntry
  deriving DecidableEq

/-- Behaviour of the vendor DLL for one call: whether `AotfWrite` and
`AotfClose` report success (nonzero return), and the value returned by
`AotfOpen`. -/
structure Transport where
  writeOk : Bool
  closeOk : Bool
  openRet : Int
  deriving DecidableEq

/-- A command handed to the transport.  `raw` carries the literal string
passed to `dll.AotfWrite` (including the `'\r'` appended by `query`/`write`);
the three `Dds` constructors represent the f-strings
`f'Dds Frequency {channel} {frequency}'`,
`f'Dds Frequency {channel} !{frequency}'` and
`f'Dds Amplitude {channel} {amplitude}'` structurally, keeping the numeric
arguments instead of their decimal rendering. -/
inductive Cmd where
  | raw (msg : PyStr)
  | ddsFrequencyMHz (channel : Int) (frequency : ℚ)
  | ddsFrequencyHz (channel : Int) (frequency : ℚ)
  | ddsAmplitude (channel : Int) (amplitude : ℚ)
  deriving DecidableEq

/-- Result of running one `AOTF` method: the state afterwards, the commands
sent to the transport, and the returned value or raised exception.  The
methods of this module never mutate state before raising, so an `error`
outcome always comes with the unchanged input state. -/
structure OpResult (α : Type) where
  state : AotfState
  sent : List Cmd
  out : Except AotfError α

/-- `self._nchannels = 8`. -/
def nchannels : Int := 8

/-- `self._amplitude_int_max = 16383`. -/
def amplitude_int_max : ℚ := 16383

/-- `AOTF._check_handle`. -/
def check_handle (st : AotfState) : Except AotfError Unit :=
  match st.handle with
  | none => .error .notOpen
  | some _ => .ok ()

/-- `AOTF._check_channel`: the source really tests
`channel < 0 and channel >= self._nchannels` (with `and`). -/
def check_channel (channel : Int) : Except AotfError Unit :=
  if channel < 0 ∧ channel ≥ nchannels then .error .invalidChannel
  else .ok ()

/-- `AOTF._write(message)`: check the handle, then hand the command to
`dll.AotfWrite`, raising when the DLL reports failure. -/
def write_raw (tr : Transport) (st : AotfState) (cmd : Cmd) : OpResult Unit :=
  match st.handle with
  | none => ⟨st, [], .error .notOpen⟩
  | some _ =>
      if tr.writeOk then ⟨st, [cmd], .ok ()⟩
      else ⟨st, [], .error .writeFailed⟩

/-- `AOTF.query(msg)`: `self._write(f'{msg}\r')` then `self._loop_read(msg)`;
the read loop is driven by the poll events. -/
def query (tr : Transport) (st : AotfState) (msg : PyStr)
    (events : List (Option PyStr)) : OpResult PyStr :=
  match st.handle with
  | none => ⟨st, [], .error .notOpen⟩
  | some _ =>
      if tr.writeOk then ⟨st, [.raw (msg ++ ['\r'])], .ok (loop_read msg events)⟩
      else ⟨st, [], .error .writeFailed⟩

/-- `AOTF.write(msg)`: print, then `self._write(f'{msg}\r')`. -/
def write (tr : Transport) (st : AotfState) (msg : PyStr) : OpResult Unit :=
  write_raw tr st (.raw (msg ++ ['\r']))

/-- `AOTF.open(controller_index)`: store the return value of `AotfOpen` when
it is nonzero, otherwise raise. -/
def open_device (tr : Transport) (st : AotfState) (controller_index : Int) :
    OpResult Unit :=
  if tr.openRet ≠ 0 then ⟨{ st with handle := some tr.openRet }, [], .ok ()⟩
  else ⟨st, [], .error (.openFailed controller_index)⟩

/-- `AOTF.close()`: check the handle, call `AotfClose`, raise on zero return
(the raise happening before `self._handle = None`, the handle is kept), and
clear the handle on success. -/
def close (tr : Transport) (st : AotfState) : OpResult Unit :=
  match st.handle with
  | none => ⟨st, [], .error .notOpen⟩
  | some _ =>
      if tr.closeOk then ⟨{ st with handle := none }, [], .ok ()⟩
      else ⟨st, [], .error .closeFailed⟩

/-- `AOTF.get_serial()`. -/
def get_serial (tr : Transport) (st : AotfState)
    (events : List (Option PyStr)) : OpResult PyStr :=
  query tr st ("BoardId Serial".data) events

/-- `AOTF.get_date()`. -/
def get_date (tr : Transport) (st : AotfState)
    (events : List (Option PyStr)) : OpResult PyStr :=
  query tr st ("BoardId Date".data) events

/-- `AOTF.reset()`. -/
def reset (tr : Transport) (st : AotfState) : OpResult Unit :=
  write tr st ("dds reset".data)

/-- `AOTF.set_acoustic_frequency_MHz(frequency, channel)`. -/
def set_acoustic_frequency_MHz (tr : Transport) (st : AotfState)
    (frequency : ℚ) (channel : Int) : OpResult Unit :=
  match check_channel channel with
  | .error e => ⟨st, [], .error e⟩
  | .ok _ => write_raw tr st (.ddsFrequencyMHz channel frequency)

/-- `AOTF.set_acoustic_frequency_Hz(frequency, channel)`. -/
def set_acoustic_frequency_Hz (tr : Transport) (st : AotfState)
    (frequency : ℚ) (channel : Int) : OpResult Unit :=
  match check_channel channel with
  | .error e => ⟨st, [], .error e⟩
  | .ok _ => write_raw tr st (.ddsFrequencyHz channel frequency)

/-- `AOTF.set_acoustic_frequency(frequency, channel)`: alias for the Hz
variant. -/
def set_acoustic_frequency (tr : Transport) (st : AotfState)
    (frequency : ℚ) (channel : Int) : OpResult Unit :=
  set_acoustic_frequency_Hz tr st frequency channel

/-- Polynomial evaluation, coefficients low degree first (Horner).  Because
the `Polynomial` is built with `domain == window`, numpy's domain-to-window
map is the identity and evaluation is plain evaluation of the coefficients. -/
def polyEval (coeffs : List ℚ) (x : ℚ) : ℚ :=
  coeffs.foldr (fun a acc => a + x * acc) 0

/-- The `calibration` property setter: when `calibration_id` is among the
keys of the loaded table, store its entry as the active calibration,
otherwise do nothing.  The table (module-level `calibration` dict) is passed
explicitly. -/
def calibration_set (table : List (String × CalibEntry)) (st : AotfState)
    (calibration_id : String) : AotfState :=
  match table.lookup calibration_id with
  | some entry => { st with calibration := some entry }
  | none => st

/-- `AOTF.set_wavelength(wavelength, channel)`: validate the channel; when a
calibration is active and `wavelength in portion.closed(*domain)`, forward
the polynomial value to `set_acoustic_frequency_MHz`, else do nothing. -/
def set_wavelength (tr : Transport) (st : AotfState)
    (wavelength : ℚ) (channel : Int) : OpResult Unit :=
  match check_channel channel with
  | .error e => ⟨st, [], .error e⟩
  | .ok _ =>
      match st.calibration with
      | some cal =>
          if cal.domain.1 ≤ wavelength ∧ wavelength ≤ cal.domain.2 then
            set_acoustic_frequency_MHz tr st (polyEval cal.coeffs wavelength) channel
          else ⟨st, [], .ok ()⟩
      | none => ⟨st, [], .ok ()⟩

/-- `AOTF.set_amplitude_int(amplitude, channel)`: validate the channel; emit
the command only when `amplitude in portion.closed(0, 16383)`.  Although the
parameter is annotated `int`, `set_amplitude_percent` passes it an unrounded
float, so the value is modelled as a rational. -/
def set_amplitude_int (tr : Transport) (st : AotfState)
    (amplitude : ℚ) (channel : Int) : OpResult Unit :=
  match check_channel channel with
  | .error e => ⟨st, [], .error e⟩
  | .ok _ =>
      if 0 ≤ amplitude ∧ amplitude ≤ amplitude_int_max then
        write_raw tr st (.ddsAmplitude channel amplitude)
      else ⟨st, [], .ok ()⟩

/-- `AOTF.set_amplitude_percent(amplitude, channel)`:
`amplitude_int = self._amplitude_int_max * amplitude / 100` (true division,
no rounding), delegated to `set_amplitude_int`. -/
def set_amplitude_percent (tr : Transport) (st : AotfState)
    (amplitude : ℚ) (channel : Int) : OpResult Unit :=
  set_amplitude_int tr st (amplitude_int_max * amplitude / 100) channel

/-- `AOTF.set_amplitude(amplitude, channel)`: alias for the percent
variant. -/
def set_amplitude (tr : Transport) (st : AotfState)
    (amplitude : ℚ) (channel : Int) : OpResult Unit :=
  set_amplitude_percent tr st amplitude channel

/-- A transport whose write and close calls succeed. -/
def okTr : Transport := ⟨true, true, 1⟩

/-- State right after a successful `open`: handle held, no calibration. -/
def openSt : AotfState := ⟨some 1, none⟩

/-- State of a fresh instance (or after a successful `close`): no handle. -/
def noSt : AotfState := ⟨none, none⟩

/-- The identity calibration of the spec's example: coefficients `[0, 1]`,
domain `[500, 600]`. -/
def identCal : CalibEntry := ⟨[0, 1], (500, 600)⟩

/-- State with a held handle and the identity calibration active. -/
def calSt : AotfState := ⟨some 1, some identCal⟩

/-- A transport whose close call reports failure (zero return). -/
def failTr : Transport := ⟨true, false, 1⟩

/-- A one-entry calibration table. -/
def table0 : List (String × CalibEntry) := [("RF1", identCal)]

lemma consHead_ne_nil (c : Char) (l : List PyStr) : consHead c l ≠ [] := by
  cases l <;> simp [consHead]

/-- Splitting a buffer on `'\r\n'` always yields at least one piece, so
Python's `splits[0]` and `splits[-1]` never go out of bounds. -/
lemma splitCRLF_ne_nil (l : PyStr) : splitCRLF l ≠ [] := by
  match l with
  | [] => simp [splitCRLF]
  | [c] => simp [splitCRLF]
  | c1 :: c2 :: rest =>
      simp only [splitCRLF]
      split
      · simp
      · exact consHead_ne_nil c1 (splitCRLF (c2 :: rest))

/-- The channel guard of the source never rejects: its condition
`channel < 0 and channel >= 8` is unsatisfiable. -/
lemma check_channel_eq_ok (channel : Int) : check_channel channel = Except.ok () := by
  have h : ¬ (channel < 0 ∧ channel ≥ nchannels) := by
    simp only [nchannels]; omega
  simp [check_channel, h]

/-- When every poll finds the port empty, the read loop sleeps through its
events and returns the empty string with the clock at `timeout + 0.1 s`
(101 tenths): the first end-of-iteration check with elapsed strictly above
the 10 s timeout. -/
lemma loop_read_go_all_none (msg read : PyStr) :
    ∀ (events : List (Option PyStr)) (sleeps : Nat),
      (∀ e ∈ events, e = none) → sleeps ≤ timeout_tenths →
      loop_read_go msg read events sleeps = ([], timeout_tenths + 1)
  | [], sleeps, _, hs => by
      simp only [loop_read_go]
      rw [Nat.max_eq_right (by omega)]
  | e :: rest, sleeps, hall, hs => by
      have he : e = none := hall e (List.mem_cons_self e rest)
      subst he
      simp only [loop_read_go]
      by_cases h : sleeps + 1 > timeout_tenths
      · rw [if_pos h]
        have h2 : sleeps + 1 = timeout_tenths + 1 := by omega
        rw [h2]
      · rw [if_neg h]
        exact loop_read_go_all_none msg read rest (sleeps + 1)
          (fun x hx => hall x (List.mem_cons_of_mem _ hx)) (by omega)

/-- The amplitude command sent by `set_amplitude_percent(50, 0)` carries the
unrounded value `16383 * 50 / 100 = 8191.5`. -/
lemma sent_percent_50 :
    (set_amplitude_percent okTr openSt 50 0).sent
      = [Cmd.ddsAmplitude 0 (16383 / 2)] := by
  have hval : amplitude_int_max * 50 / 100 = (16383 / 2 : ℚ) := by
    norm_num [amplitude_int_max]
  show (set_amplitude_int okTr openSt (amplitude_int_max * 50 / 100) 0).sent = _
  rw [hval]
  have hr : (0 : ℚ) ≤ 16383 / 2 ∧ (16383 / 2 : ℚ) ≤ amplitude_int_max := by
    norm_num [amplitude_int_max]
  simp only [set_amplitude_int, check_channel_eq_ok]
  rw [if_pos hr]
  rfl

/-- Claim C1: the spec's framing round-trip — echoing `C + CRLF` and then
emitting `done CRLF * CRLF` should make `query(C)` return exactly `done` —
fails on the code.  At the real command `BoardId Serial`: when the final
CRLF arrives in a read of its own, completion is detected but
`lstrip(msg + CRLF)` strips the *character set* of the command, eating the
leading `d`, `o` of the payload, and the reply is `ne`; when the final CRLF
arrives inside the last read, the last split line is empty, the asterisk
check never fires, and the query times out to the empty string.  Neither
result is `done`. -/
theorem C1_query_framing_bug :
    (query okTr openSt ("BoardId Serial".data)
        [some ("BoardId Serial\r\n".data), some ("done\r\n*".data),
         some ("\r\n".data)]).out = Except.ok ("ne".data) ∧
    (query okTr openSt ("BoardId Serial".data)
        [some ("BoardId Serial\r\n".data), some ("done\r\n*\r\n".data)]).out
      = Except.ok [] ∧
    "ne".data ≠ "done".data ∧ ([] : PyStr) ≠ "done".data :=
  ⟨rfl, rfl, by decide, by decide⟩

/-- Claim C2: `set_acoustic_frequency_Hz` should raise `InvalidChannelError`
exactly when the channel is outside `[0, 7]`; but the source's guard tests
`channel < 0 and channel >= 8`, which no integer satisfies, so every channel
passes validation and the command is sent even for channels `8` and `-1`. -/
theorem C2_channel_validation_bug :
    (∀ channel : Int, check_channel channel = Except.ok ()) ∧
    set_acoustic_frequency_Hz okTr openSt 200 8
      = ⟨openSt, [Cmd.ddsFrequencyHz 8 200], Except.ok ()⟩ ∧
    set_acoustic_frequency_Hz okTr openSt 200 (-1)
      = ⟨openSt, [Cmd.ddsFrequencyHz (-1) 200], Except.ok ()⟩ :=
  ⟨check_channel_eq_ok, rfl, rfl⟩

/-- Claim C3: when the transport never reports data available, `query`
returns the empty string, and the read loop's clock stands at
`timeout + poll interval` (10 s + 0.1 s, i.e. 101 tenths) when it gives up:
the loop always terminates. -/
theorem C3_timeout_returns_empty :
    ∀ (tr : Transport) (st : AotfState) (msg : PyStr)
      (events : List (Option PyStr)),
      st.handle ≠ none → tr.writeOk = true → (∀ e ∈ events, e = none) →
      (query tr st msg events).out = Except.ok [] ∧
      loop_read_timed msg events = ([], timeout_tenths + 1) := by
  intro tr st msg events hh hw hall
  have hloop : loop_read_timed msg events = ([], timeout_tenths + 1) :=
    loop_read_go_all_none msg [] events 0 hall (by omega)
  refine ⟨?_, hloop⟩
  obtain ⟨oh, oc⟩ := st
  cases oh with
  | none => exact absurd rfl hh
  | some h => simp [query, hw, loop_read, hloop]

theorem C3_timeout_returns_empty_witness :
    (query okTr openSt ("BoardId Serial".data) [none, none]).out
      = Except.ok [] ∧
    loop_read_timed ("BoardId Serial".data) [none, none]
      = ([], timeout_tenths + 1) :=
  C3_timeout_returns_empty okTr openSt ("BoardId Serial".data) [none, none]
    (by decide) rfl (by decide)

/-- Claim C4 is refuted at a concrete input: with no handle held,
`set_wavelength(550, 0)` on a fresh instance (no active calibration) returns
normally and raises nothing, contradicting "every public operation other
than open fails with NotOpenError". -/
theorem C4_counterexample :
    set_wavelength okTr noSt 550 0 = ⟨noSt, [], Except.ok ()⟩ ∧
    (set_wavelength okTr noSt 550 0).out ≠ Except.error AotfError.notOpen :=
  ⟨rfl, fun h => Except.noConfusion h⟩

/-- Claim C4, amended: while no handle is held, `close`, `query`, `write`,
`get_serial`, `get_date`, `reset`, both frequency setters, `set_amplitude_int`
on an in-range amplitude, and `set_wavelength` to an in-domain wavelength of
an active calibration all fail with `NotOpenError`; but the operations whose
own guards skip the transport return silently instead — `set_amplitude_int`
on an out-of-range amplitude, `set_wavelength` with no active calibration,
and `set_wavelength` with an active calibration but an out-of-domain
wavelength — and the calibration assignment performs no handle check at all (it never
raises `NotOpenError`, and leaves the handle unset). -/
theorem C4_handle_guard_amended :
    ∀ (tr : Transport) (st : AotfState), st.handle = none →
      (close tr st).out = Except.error AotfError.notOpen ∧
      (∀ msg events, (query tr st msg events).out = Except.error AotfError.notOpen) ∧
      (∀ msg, (write tr st msg).out = Except.error AotfError.notOpen) ∧
      (∀ events, (get_serial tr st events).out = Except.error AotfError.notOpen) ∧
      (∀ events, (get_date tr st events).out = Except.error AotfError.notOpen) ∧
      (reset tr st).out = Except.error AotfError.notOpen ∧
      (∀ f c, (set_acoustic_frequency_Hz tr st f c).out
        = Except.error AotfError.notOpen) ∧
      (∀ f c, (set_acoustic_frequency_MHz tr st f c).out
        = Except.error AotfError.notOpen) ∧
      (∀ a c, 0 ≤ a → a ≤ amplitude_int_max →
        (set_amplitude_int tr st a c).out = Except.error AotfError.notOpen) ∧
      (∀ a c, ¬ (0 ≤ a ∧ a ≤ amplitude_int_max) →
        set_amplitude_int tr st a c = ⟨st, [], Except.ok ()⟩) ∧
      (∀ w c cal, st.calibration = some cal →
        cal.domain.1 ≤ w → w ≤ cal.domain.2 →
        (set_wavelength tr st w c).out = Except.error AotfError.notOpen) ∧
      (∀ w c cal, st.calibration = some cal →
        ¬ (cal.domain.1 ≤ w ∧ w ≤ cal.domain.2) →
        set_wavelength tr st w c = ⟨st, [], Except.ok ()⟩) ∧
      (st.calibration = none →
        ∀ w c, set_wavelength tr st w c = ⟨st, [], Except.ok ()⟩) ∧
      (∀ table cid, (calibration_set table st cid).handle = none) := by
  intro tr st hnone
  obtain ⟨oh, oc⟩ := st
  obtain rfl : oh = none := hnone
  refine ⟨rfl, fun msg events => rfl, fun msg => rfl, fun events => rfl,
    fun events => rfl, rfl, ?_, ?_, ?_, ?_, ?_, ?_, ?_, ?_⟩
  · intro f c
    simp [set_acoustic_frequency_Hz, check_channel_eq_ok, write_raw]
  · intro f c
    simp [set_acoustic_frequency_MHz, check_channel_eq_ok, write_raw]
  · intro a c h1 h2
    simp only [set_amplitude_int, check_channel_eq_ok]
    rw [if_pos ⟨h1, h2⟩]
    rfl
  · intro a c hr
    simp only [set_amplitude_int, check_channel_eq_ok]
    rw [if_neg hr]
  · intro w c cal hcal hd1 hd2
    obtain rfl : oc = some cal := hcal
    simp only [set_wavelength, check_channel_eq_ok]
    rw [if_pos ⟨hd1, hd2⟩]
    simp [set_acoustic_frequency_MHz, check_channel_eq_ok, write_raw]
  · intro w c cal hcal hd
    obtain rfl : oc = some cal := hcal
    simp only [set_wavelength, check_channel_eq_ok]
    rw [if_neg hd]
  · intro hc w c
    obtain rfl : oc = none := hc
    simp [set_wavelength, check_channel_eq_ok]
  · intro table cid
    cases h : table.lookup cid <;> simp [calibration_set, h]

theorem C4_handle_guard_amended_witness :
    (close okTr noSt).out = Except.error AotfError.notOpen :=
  (C4_handle_guard_amended okTr noSt rfl).1

/-- Claim C5: with a handle held and a working transport,
`set_amplitude_int(a, c)` hands a `Dds Amplitude` command carrying `a` to the
transport exactly when `0 ≤ a ≤ 16383`; an out-of-range amplitude makes the
call a silent no-op — no command, no clamping. -/
theorem C5_amplitude_domain :
    ∀ (tr : Transport) (st : AotfState) (a : ℚ) (c : Int),
      st.handle ≠ none → tr.writeOk = true → 0 ≤ c → c < nchannels →
      ((set_amplitude_int tr st a c).sent = [Cmd.ddsAmplitude c a] ↔
        (0 ≤ a ∧ a ≤ amplitude_int_max)) ∧
      (¬ (0 ≤ a ∧ a ≤ amplitude_int_max) →
        set_amplitude_int tr st a c = ⟨st, [], Except.ok ()⟩) := by
  intro tr st a c hh hw _ _
  obtain ⟨oh, oc⟩ := st
  cases oh with
  | none => exact absurd rfl hh
  | some h =>
      simp only [set_amplitude_int, check_channel_eq_ok]
      constructor
      · by_cases hr : (0 ≤ a ∧ a ≤ amplitude_int_max)
        · rw [if_pos hr]
          simp [write_raw, hw, hr]
        · rw [if_neg hr]
          simp [hr]
      · intro hr
        rw [if_neg hr]

theorem C5_amplitude_domain_witness :
    ((set_amplitude_int okTr openSt 8000 0).sent = [Cmd.ddsAmplitude 0 8000] ↔
      (0 ≤ (8000 : ℚ) ∧ (8000 : ℚ) ≤ amplitude_int_max)) ∧
    set_amplitude_int okTr openSt 20000 0 = ⟨openSt, [], Except.ok ()⟩ :=
  ⟨(C5_amplitude_domain okTr openSt 8000 0 (by decide) rfl (by decide)
      (by decide)).1,
   (C5_amplitude_domain okTr openSt 20000 0 (by decide) rfl (by decide)
      (by decide)).2 (by norm_num [amplitude_int_max])⟩

/-- Claim C6 is refuted at a concrete input: `set_amplitude_percent(50, 0)`
emits a command carrying `16383 * 50 / 100 = 8191.5`, not the integer
`8191` — the conversion performs true division with no rounding. -/
theorem C6_counterexample :
    (set_amplitude_percent okTr openSt 50 0).sent
      ≠ [Cmd.ddsAmplitude 0 8191] ∧
    (set_amplitude_percent okTr openSt 50 0).sent
      = [Cmd.ddsAmplitude 0 (16383 / 2)] := by
  refine ⟨?_, sent_percent_50⟩
  rw [sent_percent_50]
  intro h
  simp only [List.cons.injEq, Cmd.ddsAmplitude.injEq] at h
  norm_num at h

/-- Claim C6, amended: `set_amplitude_percent(p, c)` converts percent to
device units by the exact linear scaling `16383 * p / 100` and delegates the
unrounded rational to `set_amplitude_int`; for `p = 50` the emitted command
carries the amplitude value `8191.5`, not the integer `8191`. -/
theorem C6_percent_scaling_amended :
    (∀ (tr : Transport) (st : AotfState) (p : ℚ) (c : Int),
       set_amplitude_percent tr st p c
         = set_amplitude_int tr st (amplitude_int_max * p / 100) c) ∧
    (set_amplitude_percent okTr openSt 50 0).sent
      = [Cmd.ddsAmplitude 0 (16383 / 2)] :=
  ⟨fun _ _ _ _ => rfl, sent_percent_50⟩

/-- Claim C7: with a handle held and a working transport, `set_wavelength`
hands a `Dds Frequency` (MHz) command to the transport exactly when a
calibration is active and the wavelength lies in its closed domain, and the
frequency sent is the calibration polynomial at the wavelength; with no
active calibration, or a wavelength outside the domain, the call is a silent
no-op. -/
theorem C7_wavelength_gating :
    ∀ (tr : Transport) (st : AotfState) (w : ℚ) (c : Int),
      st.handle ≠ none → tr.writeOk = true → 0 ≤ c → c < nchannels →
      (st.calibration = none →
        set_wavelength tr st w c = ⟨st, [], Except.ok ()⟩) ∧
      (∀ cal, st.calibration = some cal →
        (cal.domain.1 ≤ w ∧ w ≤ cal.domain.2 →
          set_wavelength tr st w c
            = ⟨st, [Cmd.ddsFrequencyMHz c (polyEval cal.coeffs w)],
                Except.ok ()⟩) ∧
        (¬ (cal.domain.1 ≤ w ∧ w ≤ cal.domain.2) →
          set_wavelength tr st w c = ⟨st, [], Except.ok ()⟩)) := by
  intro tr st w c hh hw _ _
  obtain ⟨oh, oc⟩ := st
  cases oh with
  | none => exact absurd rfl hh
  | some h =>
      constructor
      · intro hc
        obtain rfl : oc = none := hc
        simp [set_wavelength, check_channel_eq_ok]
      · intro cal hcal
        obtain rfl : oc = some cal := hcal
        constructor
        · intro hd
          simp only [set_wavelength, check_channel_eq_ok]
          rw [if_pos hd]
          simp [set_acoustic_frequency_MHz, check_channel_eq_ok, write_raw, hw]
        · intro hd
          simp only [set_wavelength, check_channel_eq_ok]
          rw [if_neg hd]

theorem C7_wavelength_gating_witness :
    set_wavelength okTr calSt 550 0
      = ⟨calSt, [Cmd.ddsFrequencyMHz 0 550], Except.ok ()⟩ ∧
    set_wavelength okTr calSt 700 0 = ⟨calSt, [], Except.ok ()⟩ := by
  have h1 := ((C7_wavelength_gating okTr calSt 550 0 (by decide) rfl
      (by decide) (by decide)).2 identCal rfl).1 (by norm_num [identCal])
  have h2 := ((C7_wavelength_gating okTr calSt 700 0 (by decide) rfl
      (by decide) (by decide)).2 identCal rfl).2 (by norm_num [identCal])
  refine ⟨?_, h2⟩
  rw [h1]
  have hp : polyEval identCal.coeffs 550 = 550 := by
    norm_num [polyEval, identCal]
  rw [hp]

/-- Claim C8: assigning the active calibration with a key absent from the
table is a silent no-op (the state, in particular the previously active
calibration or its absence, is unchanged and nothing is raised); a key
present in the table replaces the active calibration with its entry. -/
theorem C8_unknown_calibration_key :
    ∀ (table : List (String × CalibEntry)) (st : AotfState) (cid : String),
      (table.lookup cid = none → calibration_set table st cid = st) ∧
      (∀ entry, table.lookup cid = some entry →
        calibration_set table st cid = { st with calibration := some entry }) := by
  intro table st cid
  constructor
  · intro h
    simp [calibration_set, h]
  · intro entry h
    simp [calibration_set, h]

theorem C8_unknown_calibration_key_witness :
    calibration_set table0 calSt "nope" = calSt ∧
    calibration_set table0 noSt "RF1" = { noSt with calibration := some identCal } :=
  ⟨(C8_unknown_calibration_key table0 calSt "nope").1 (by decide),
   (C8_unknown_calibration_key table0 noSt "RF1").2 identCal (by decide)⟩

/-- Claim C9: `close` requires a held handle (`NotOpenError` otherwise); when
the transport's close reports failure it raises `DeviceCloseError` with the
handle left in place (a retry remains possible, the raise preceding the
assignment that clears it); when the close succeeds the handle is cleared. -/
theorem C9_close_behavior :
    ∀ (tr : Transport) (st : AotfState),
      (st.handle = none →
        close tr st = ⟨st, [], Except.error AotfError.notOpen⟩) ∧
      (st.handle ≠ none → tr.closeOk = false →
        close tr st = ⟨st, [], Except.error AotfError.closeFailed⟩) ∧
      (st.handle ≠ none → tr.closeOk = true →
        close tr st = ⟨{ st with handle := none }, [], Except.ok ()⟩) := by
  intro tr st
  obtain ⟨oh, oc⟩ := st
  refine ⟨?_, ?_, ?_⟩
  · intro h
    obtain rfl : oh = none := h
    rfl
  · intro hh hc
    cases oh with
    | none => exact absurd rfl hh
    | some h => simp [close, hc]
  · intro hh hc
    cases oh with
    | none => exact absurd rfl hh
    | some h => simp [close, hc]

theorem C9_close_behavior_witness :
    close okTr openSt = ⟨{ openSt with handle := none }, [], Except.ok ()⟩ ∧
    close failTr openSt = ⟨openSt, [], Except.error AotfError.closeFailed⟩ :=
  ⟨(C9_close_behavior okTr openSt).2.2 (by decide) rfl,
   (C9_close_behavior failTr openSt).2.1 (by decide) rfl⟩

/-- Claim C10: completion detection is total.  For every buffer and command,
splitting the buffer on `'\r\n'` yields a non-empty list — so taking the
first and last lines (Python's `splits[0]`, `splits[-1]`) is always in
bounds, the empty buffer included — and `check_message_done` returns `true`
exactly when the first line equals the command and the last line contains an
asterisk. -/
theorem C10_check_message_done_total :
    ∀ read msg : PyStr,
      splitCRLF read ≠ [] ∧
      (check_message_done read msg = true ↔
        ((splitCRLF read).headD [] = msg ∧
         ((splitCRLF read).getLastD []).contains '*' = true)) := by
  intro read msg
  refine ⟨splitCRLF_ne_nil read, ?_⟩
  simp only [check_message_done]
  by_cases h : (splitCRLF read).headD [] = msg
  · simp [h]
  · simp [h]

end AodsController
